import Mathlib

/-!
Shallow embedding of the fp-imu-service core (src/src/imu_buffer.py,
src/src/mqtt_broker/mqtt_broker.py, src/src/imu_message_handler.py).

Python values are modelled by `PyVal` (scalars) and `PyPayload`
(a JSON object as an insertion-ordered association list, or a non-object
scalar).  A Python `raise` that the embedded function does not catch is
modelled by `Option`/`Except` failure; a caught exception is modelled by
the handler branch of the embedded function.  Floats are opaque: only
their identity and truthiness matter to the embedded code, so they carry
an integer code.
-/

namespace FPImu

/-- A Python scalar value as it can appear in a decoded JSON message. -/
inductive PyVal where
  | pyBool (b : Bool)
  | pyInt (n : Int)
  | pyFloat (code : Int)
  | pyStr (s : String)
  | pyNone
deriving Repr, DecidableEq

/-- Python truthiness of a scalar (`if not device_id` in
`handle_imu_data_message`): `None`, `False`, `0`, `0.0` and `""` are
falsy.  The opaque float code `0` stands for `0.0`. -/
def truthy : PyVal → Bool
  | .pyBool b => b
  | .pyInt n => n != 0
  | .pyFloat c => c != 0
  | .pyStr s => s != ""
  | .pyNone => false

/-- `isinstance(v, (int, float))` from `validate_sensor_values`.
Python `bool` is a subclass of `int`, so booleans pass this check. -/
def isNumber : PyVal → Bool
  | .pyBool _ => true
  | .pyInt _ => true
  | .pyFloat _ => true
  | .pyStr _ => false
  | .pyNone => false

/-- The `values` half of a sensor reading: either a JSON object (a dict,
kept as an insertion-ordered association list, matching Python dict
iteration order) or a non-object value (rejected by the validator). -/
inductive PyPayload where
  | dict (entries : List (String × PyVal))
  | nondict (v : PyVal)
deriving Repr, DecidableEq

/-- The `ValueError` variants raised by `validate_sensor_values`. -/
inductive VErr where
  | notAnObject
  | missingField (name : String)
  | notNumeric (name : String)
deriving Repr, DecidableEq

/-- The required-field table of `validate_sensor_values`: all sensor
types require `x, y, z` except `orientation`. -/
def requiredFields (name : String) : List String :=
  if name = "orientation" then
    ["qx", "qy", "qz", "qw", "roll", "pitch", "yaw"]
  else
    ["x", "y", "z"]

/-- `field in values` for a Python dict modelled as an assoc list. -/
def hasKey (entries : List (String × PyVal)) (field : String) : Bool :=
  entries.any (fun p => p.1 = field)

/-- `IMUBuffer.validate_sensor_values(values, name)`: rejects a
non-object, then reports the first missing required field in
left-to-right table order, then the first non-numeric field in dict
iteration order; returns `ok` otherwise. -/
def validate_sensor_values (values : PyPayload) (name : String) :
    Except VErr Unit :=
  match values with
  | .nondict _ => .error .notAnObject
  | .dict entries =>
    match (requiredFields name).find? (fun f => !(hasKey entries f)) with
    | some f => .error (.missingField f)
    | none =>
      match entries.find? (fun p => !(isNumber p.2)) with
      | some p => .error (.notNumeric p.1)
      | none => .ok ()

/-- The five per-sensor-type buffers plus the configured capacity.
`max_size` is an `Int` because the Python code never validates it, so
zero and negative configured capacities are representable. -/
structure IMUBuffer where
  accelerometer_data_buffer : List PyPayload
  gyroscope_data_buffer : List PyPayload
  gravity_data_buffer : List PyPayload
  total_acceleration_data_buffer : List PyPayload
  orientation_data_buffer : List PyPayload
  max_size : Int
deriving Repr, DecidableEq

/-- `IMUBuffer.__init__`: five empty buffers; stores
`config['data']['max_buffer_size']` with no validation. -/
def imuBufferInit (max_buffer_size : Int) : IMUBuffer :=
  { accelerometer_data_buffer := []
    gyroscope_data_buffer := []
    gravity_data_buffer := []
    total_acceleration_data_buffer := []
    orientation_data_buffer := []
    max_size := max_buffer_size }

/-- `IMUBuffer.add_to_buffer(data, buffer)`: if the buffer has reached
`max_size`, pop the oldest entry, then append.  `buffer.pop(0)` on an
empty list raises an uncaught `IndexError`, modelled by `none`. -/
def add_to_buffer (max_size : Int) (data : PyPayload)
    (buffer : List PyPayload) : Option (List PyPayload) :=
  if (buffer.length : Int) ≥ max_size then
    match buffer with
    | [] => none
    | _ :: rest => some (rest ++ [data])
  else
    some (buffer ++ [data])

/-- One formatted reading as handed to `process_sensor_reading`
(the unused `device_id` key added by `IMUMessageHandler` is dropped). -/
structure Reading where
  sensor_name : String
  payload : PyPayload
deriving Repr, DecidableEq

/-- `IMUBuffer.process_sensor_reading(reading)`: route by sensor name,
validate, buffer.  A `ValueError` from validation is caught and logged
(`some st`, state unchanged); an `IndexError` from `add_to_buffer` is
not a `ValueError` and propagates (`none`); an unknown sensor name
matches no branch and falls through silently. -/
def process_sensor_reading (st : IMUBuffer) (reading : Reading) :
    Option IMUBuffer :=
  let name := reading.sensor_name
  let values := reading.payload
  if name = "accelerometer" then
    match validate_sensor_values values name with
    | .error _ => some st
    | .ok _ =>
      match add_to_buffer st.max_size values st.accelerometer_data_buffer with
      | none => none
      | some b => some { st with accelerometer_data_buffer := b }
  else if name = "gyroscope" then
    match validate_sensor_values values name with
    | .error _ => some st
    | .ok _ =>
      match add_to_buffer st.max_size values st.gyroscope_data_buffer with
      | none => none
      | some b => some { st with gyroscope_data_buffer := b }
  else if name = "gravity" then
    match validate_sensor_values values name with
    | .error _ => some st
    | .ok _ =>
      match add_to_buffer st.max_size values st.gravity_data_buffer with
      | none => none
      | some b => some { st with gravity_data_buffer := b }
  else if name = "totalacceleration" then
    match validate_sensor_values values name with
    | .error _ => some st
    | .ok _ =>
      match add_to_buffer st.max_size values st.total_acceleration_data_buffer with
      | none => none
      | some b => some { st with total_acceleration_data_buffer := b }
  else if name = "orientation" then
    match validate_sensor_values values name with
    | .error _ => some st
    | .ok _ =>
      match add_to_buffer st.max_size values st.orientation_data_buffer with
      | none => none
      | some b => some { st with orientation_data_buffer := b }
  else
    some st

/-- The five sensor tags with a dispatch branch in
`process_sensor_reading`. -/
def knownSensor (name : String) : Bool :=
  name == "accelerometer" || name == "gyroscope" || name == "gravity" ||
    name == "totalacceleration" || name == "orientation"

/-- Read one named channel of the buffer (the keyed access that
`get_data` exposes). -/
def bufferOf (st : IMUBuffer) (name : String) : List PyPayload :=
  if name = "accelerometer" then st.accelerometer_data_buffer
  else if name = "gyroscope" then st.gyroscope_data_buffer
  else if name = "gravity" then st.gravity_data_buffer
  else if name = "totalacceleration" then st.total_acceleration_data_buffer
  else if name = "orientation" then st.orientation_data_buffer
  else []

/-- A sequence of `add_to_buffer` pushes onto one channel, oldest push
first; fails (`none`) as soon as one push raises. -/
def push_all (max_size : Int) (buffer : List PyPayload) :
    List PyPayload → Option (List PyPayload)
  | [] => some buffer
  | x :: xs =>
    match add_to_buffer max_size x buffer with
    | none => none
    | some b2 => push_all max_size b2 xs

/-- One element of the inbound `payload` list: a dict element carries
its optional `name` and `values` keys (`None` when the key is absent);
a non-dict element carries the raw scalar. -/
inductive SensorElem where
  | dictElem (name : Option String) (values : Option PyPayload)
  | nonDictElem (v : PyVal)
deriving Repr, DecidableEq

/-- The `payload` field of a decoded message body: a JSON list of
elements, or some non-list value. -/
inductive MsgPayload where
  | list (elems : List SensorElem)
  | nonlist (v : PyVal)
deriving Repr, DecidableEq

/-- A decoded data-stream message body: its optional `deviceId` and
optional `payload` keys, as read by `payload.get(...)`. -/
structure MsgBody where
  deviceId : Option PyVal
  payload : Option MsgPayload
deriving Repr, DecidableEq

/-- `payload.get('deviceId')` followed by the `if not device_id` check:
true iff the key is present with a truthy value. -/
def deviceIdTruthy (body : MsgBody) : Bool :=
  match body.deviceId with
  | none => false
  | some d => truthy d

/-- `payload.get('payload', [])`: the payload field, defaulting to the
empty list. -/
def imuPayload (body : MsgBody) : MsgPayload :=
  body.payload.getD (.list [])

/-- `isinstance(imu_payload, list) and imu_payload`: a non-empty list. -/
def isNonEmptyList : MsgPayload → Bool
  | .list (_ :: _) => true
  | .list [] => false
  | .nonlist _ => false

/-- The formatted reading `MQTTBroker.handle_imu_data_message` builds
from one dict element: `sensor_data.get('name', 'unknown')` and
`sensor_data.get('values', \x7b\x7d)`. -/
def mkReading (name : Option String) (values : Option PyPayload) : Reading :=
  { sensor_name := name.getD "unknown"
    payload := values.getD (.dict []) }

/-- The per-element loop of `MQTTBroker.handle_imu_data_message`:
non-dict elements are skipped with a warning; each dict element is
formatted and handed to `process_sensor_reading`.  An exception from
processing (the `IndexError` case) is caught by the surrounding
`except Exception`, which stops the loop but returns normally.  Returns
the final buffer state and the readings dispatched, in order. -/
def processElems : IMUBuffer → List SensorElem → IMUBuffer × List Reading
  | st, [] => (st, [])
  | st, .nonDictElem _ :: rest => processElems st rest
  | st, .dictElem nm vs :: rest =>
    let r := mkReading nm vs
    match process_sensor_reading st r with
    | none => (st, [r])
    | some st2 =>
      let p := processElems st2 rest
      (p.1, r :: p.2)

/-- `MQTTBroker.handle_imu_data_message(payload)`: rejects the whole
message when `deviceId` is absent or falsy, or when `payload` is not a
non-empty list; otherwise runs the per-element loop. -/
def handle_imu_data_message (st : IMUBuffer) (body : MsgBody) :
    IMUBuffer × List Reading :=
  if deviceIdTruthy body = false then (st, [])
  else
    match imuPayload body with
    | .nonlist _ => (st, [])
    | .list [] => (st, [])
    | .list (e :: es) => processElems st (e :: es)

/-- The exceptions `IMUMessageHandler.handle_data_processing` converts
into a `RuntimeError`. -/
inductive HandlerErr where
  | invalidPayload
  | malformedElement
  | indexError
deriving Repr, DecidableEq

/-- The per-element loop of
`IMUMessageHandler.handle_data_processing`: an element that is not a
dict with both `name` and `values` keys raises (a `TypeError` from the
`in` test or the explicit `ValueError`), which aborts the loop; a
well-shaped element is handed to `process_sensor_reading`, whose
internal validation failures do not abort.  Returns the buffer state at
exit (Python mutates the shared buffer in place, so readings processed
before a raise stay buffered) and either the error raised or the
readings dispatched, in order. -/
def hdpGo : IMUBuffer → List SensorElem →
    IMUBuffer × Except HandlerErr (List Reading)
  | st, [] => (st, .ok [])
  | st, .nonDictElem _ :: _ => (st, .error .malformedElement)
  | st, .dictElem nm vs :: rest =>
    match nm, vs with
    | some n, some v =>
      let r : Reading := { sensor_name := n, payload := v }
      match process_sensor_reading st r with
      | none => (st, .error .indexError)
      | some st2 =>
        let p := hdpGo st2 rest
        (p.1, p.2.map (fun rs => r :: rs))
    | _, _ => (st, .error .malformedElement)

/-- `IMUMessageHandler.handle_data_processing(data)`: raises on a
missing, non-list or empty `payload`, otherwise runs its per-element
loop (whose own raises it re-raises as `RuntimeError`). -/
def handle_data_processing (st : IMUBuffer) (body : MsgBody) :
    IMUBuffer × Except HandlerErr (List Reading) :=
  match imuPayload body with
  | .nonlist _ => (st, .error .invalidPayload)
  | .list [] => (st, .error .invalidPayload)
  | .list (e :: es) => hdpGo st (e :: es)

/-- The readings the broker loop builds from the dict elements of a
payload, in list order. -/
def dictReadings (elems : List SensorElem) : List Reading :=
  elems.filterMap fun e =>
    match e with
    | .dictElem nm vs => some (mkReading nm vs)
    | .nonDictElem _ => none

/-- An element the message-handler loop accepts without raising: a dict
with both `name` and `values` present. -/
def wellShaped : SensorElem → Bool
  | .dictElem (some _) (some _) => true
  | _ => false

/-- The readings the message-handler loop builds from well-shaped
elements, in list order. -/
def elemReadings (elems : List SensorElem) : List Reading :=
  elems.filterMap fun e =>
    match e with
    | .dictElem (some n) (some v) => some { sensor_name := n, payload := v }
    | _ => none

/-- Sequential processing of a list of readings, each through
`process_sensor_reading`, keeping the prior state on a caught failure.
Used to state that the dispatch loops process their readings
independently, one at a time, in order. -/
def procFold : IMUBuffer → List Reading → IMUBuffer
  | st, [] => st
  | st, r :: rs => procFold ((process_sensor_reading st r).getD st) rs

/-- The three configured topic names
(`config['mqtt']['topics']`). -/
structure Topics where
  recording_control : String
  data_stream : String
  status : String
deriving Repr, DecidableEq

/-- The connection-session flags of `MQTTBroker` touched by the
connect/disconnect callbacks. -/
structure BrokerState where
  connection_established : Bool
  service_running : Bool
deriving Repr, DecidableEq

/-- Observable calls the callbacks make on the transport client. -/
inductive BAction where
  | subscribe (topic : String)
  | statusPublishTrigger
  | reconnectCall
deriving Repr, DecidableEq

/-- `MQTTBroker.on_connect(client, userdata, flags, rc)`: result code 0
sets the flag, subscribes to the three configured topics in order and
calls `publish_status_update` once; any other code clears the flag and
does nothing else. -/
def on_connect (t : Topics) (st : BrokerState) (rc : Int) :
    BrokerState × List BAction :=
  if rc = 0 then
    ({ st with connection_established := true },
      [.subscribe t.recording_control, .subscribe t.data_stream,
        .subscribe t.status, .statusPublishTrigger])
  else
    ({ st with connection_established := false }, [])

/-- `MQTTBroker.on_disconnect(client, userdata, rc)`: always clears
`connection_established`; a non-zero code calls
`_attempt_reconnection`, which calls `client.reconnect()` only when
`service_running` is true and catches any exception from it without
touching `service_running`. -/
def on_disconnect (st : BrokerState) (rc : Int) :
    BrokerState × List BAction :=
  let st1 := { st with connection_established := false }
  if rc ≠ 0 then
    if st1.service_running then (st1, [.reconnectCall]) else (st1, [])
  else
    (st1, [])

/-- A complete, numeric accelerometer-style values map. -/
def accelValues : PyPayload :=
  .dict [("x", .pyInt 1), ("y", .pyInt 2), ("z", .pyInt 3)]

/-- A valid accelerometer reading (used for the capacity claims). -/
def validAccelReading : Reading :=
  { sensor_name := "accelerometer", payload := accelValues }

/-- A values map whose `x` field is the boolean `True`. -/
def boolValuesPayload : PyPayload :=
  .dict [("x", .pyBool true), ("y", .pyInt 1), ("z", .pyInt 2)]

/-- A body with a well-formed payload but no `deviceId`. -/
def c4Body : MsgBody :=
  { deviceId := none
    payload := some (.list [.dictElem (some "accelerometer") (some accelValues)]) }

/-- A body with a `deviceId` but whose `payload` is not a list. -/
def c4BadPayloadBody : MsgBody :=
  { deviceId := some (.pyStr "d1")
    payload := some (.nonlist (.pyStr "bad")) }

/-- A well-formed body whose first payload element lacks the `values`
key and whose second element is a fully valid accelerometer reading. -/
def c5Body : MsgBody :=
  { deviceId := some (.pyStr "d1")
    payload := some (.list
      [.dictElem (some "accelerometer") none,
        .dictElem (some "accelerometer") (some accelValues)]) }

/-- A concrete topic configuration for witnesses. -/
def demoTopics : Topics :=
  { recording_control := "rec", data_stream := "data", status := "stat" }

/-- A session whose startup succeeded and is still running. -/
def runningSession : BrokerState :=
  { connection_established := true, service_running := true }

/-- A session that is connected but no longer running (after a
shutdown signal or a failed startup wait). -/
def stoppedSession : BrokerState :=
  { connection_established := true, service_running := false }

/-- The topic of a subscribe action. -/
def subTopic : BAction → Option String
  | .subscribe s => some s
  | _ => none

/-- Is this action the status-publish trigger? -/
def isStatusTrigger : BAction → Bool
  | .statusPublishTrigger => true
  | _ => false

/-- Is this action a reconnect call on the transport client? -/
def isReconnectCall : BAction → Bool
  | .reconnectCall => true
  | _ => false

/-! ## Helper lemmas -/

/-- `find?` over a required-field list reports the first key that is
missing: every field before `f` is present and `f` is absent. -/
theorem find_missing_first (entries : List (String × PyVal))
    (pre : List String) (f : String) (post : List String)
    (hpre : ∀ g ∈ pre, hasKey entries g = true)
    (hf : hasKey entries f = false) :
    (pre ++ f :: post).find? (fun g => !(hasKey entries g)) = some f := by
  induction pre with
  | nil =>
    rw [List.nil_append]
    exact List.find?_cons_of_pos _ (by simp [hf])
  | cons a pre ih =>
    rw [List.cons_append, List.find?_cons_of_neg]
    · exact ih (fun g hg => hpre g (by simp [hg]))
    · simp [hpre a (by simp)]

/-- A values map with every required field present and every value
numeric validates successfully. -/
theorem validate_ok (name : String) (entries : List (String × PyVal))
    (hreq : ∀ f ∈ requiredFields name, hasKey entries f = true)
    (hnum : ∀ p ∈ entries, isNumber p.2 = true) :
    validate_sensor_values (.dict entries) name = .ok () := by
  have h1 : (requiredFields name).find? (fun f => !(hasKey entries f)) = none :=
    List.find?_eq_none.mpr (fun f hfmem => by simp [hreq f hfmem])
  have h2 : entries.find? (fun p => !(isNumber p.2)) = none :=
    List.find?_eq_none.mpr (fun p hp => by simp [hnum p hp])
  simp [validate_sensor_values, h1, h2]

/-- With a positive capacity, a push always succeeds, ends with the
pushed entry, and is a plain append while the buffer is below
capacity. -/
theorem add_ok (m : Int) (hm : 1 ≤ m) (v : PyPayload) (b : List PyPayload) :
    ∃ b2, add_to_buffer m v b = some b2 ∧ b2.getLast? = some v ∧
      ((b.length : Int) < m → b2 = b ++ [v]) := by
  unfold add_to_buffer
  split
  · next hge =>
    cases b with
    | nil =>
      exfalso
      simp only [List.length_nil, Nat.cast_zero] at hge
      omega
    | cons a rest =>
      refine ⟨rest ++ [v], rfl, List.getLast?_concat _, fun hlt => ?_⟩
      exfalso
      omega
  · next hlt =>
    exact ⟨b ++ [v], rfl, List.getLast?_concat _, fun _ => rfl⟩

/-- With a positive capacity, a push never raises. -/
theorem add_total (m : Int) (hm : 1 ≤ m) (v : PyPayload)
    (b : List PyPayload) : ∃ b2, add_to_buffer m v b = some b2 := by
  obtain ⟨b2, hb2, -, -⟩ := add_ok m hm v b
  exact ⟨b2, hb2⟩

/-- A reading whose validation raises a `ValueError` is caught and
dropped: the buffer state is returned unchanged. -/
theorem process_on_invalid (st : IMUBuffer) (r : Reading) (e : VErr)
    (hval : validate_sensor_values r.payload r.sensor_name = .error e) :
    process_sensor_reading st r = some st := by
  unfold process_sensor_reading
  dsimp only
  split_ifs <;> simp [hval]

/-- With a positive capacity, processing any reading never raises and
never changes the configured capacity. -/
theorem process_total (st : IMUBuffer) (r : Reading)
    (hm : 1 ≤ st.max_size) :
    ∃ st2, process_sensor_reading st r = some st2 ∧
      st2.max_size = st.max_size := by
  unfold process_sensor_reading
  dsimp only
  split_ifs
  · rcases hval : validate_sensor_values r.payload r.sensor_name with e | u
    · exact ⟨st, by simp [hval], rfl⟩
    · obtain ⟨b2, hb2⟩ :=
        add_total st.max_size hm r.payload st.accelerometer_data_buffer
      exact ⟨{ st with accelerometer_data_buffer := b2 },
        by simp [hval, hb2], rfl⟩
  · rcases hval : validate_sensor_values r.payload r.sensor_name with e | u
    · exact ⟨st, by simp [hval], rfl⟩
    · obtain ⟨b2, hb2⟩ :=
        add_total st.max_size hm r.payload st.gyroscope_data_buffer
      exact ⟨{ st with gyroscope_data_buffer := b2 },
        by simp [hval, hb2], rfl⟩
  · rcases hval : validate_sensor_values r.payload r.sensor_name with e | u
    · exact ⟨st, by simp [hval], rfl⟩
    · obtain ⟨b2, hb2⟩ :=
        add_total st.max_size hm r.payload st.gravity_data_buffer
      exact ⟨{ st with gravity_data_buffer := b2 },
        by simp [hval, hb2], rfl⟩
  · rcases hval : validate_sensor_values r.payload r.sensor_name with e | u
    · exact ⟨st, by simp [hval], rfl⟩
    · obtain ⟨b2, hb2⟩ :=
        add_total st.max_size hm r.payload st.total_acceleration_data_buffer
      exact ⟨{ st with total_acceleration_data_buffer := b2 },
        by simp [hval, hb2], rfl⟩
  · rcases hval : validate_sensor_values r.payload r.sensor_name with e | u
    · exact ⟨st, by simp [hval], rfl⟩
    · obtain ⟨b2, hb2⟩ :=
        add_total st.max_size hm r.payload st.orientation_data_buffer
      exact ⟨{ st with orientation_data_buffer := b2 },
        by simp [hval, hb2], rfl⟩
  · exact ⟨st, rfl, rfl⟩

/-- With a positive capacity, the broker-side loop dispatches exactly
the dict elements, in list order, and processes them one at a time. -/
theorem processElems_spec (elems : List SensorElem) :
    ∀ st : IMUBuffer, 1 ≤ st.max_size →
      processElems st elems =
        (procFold st (dictReadings elems), dictReadings elems) := by
  induction elems with
  | nil => intro st hm; simp [processElems, dictReadings, procFold]
  | cons e rest ih =>
    intro st hm
    cases e with
    | nonDictElem v =>
      simp [processElems, dictReadings, List.filterMap_cons, ih st hm]
    | dictElem nm vs =>
      obtain ⟨st2, hst2, hmax⟩ := process_total st (mkReading nm vs) hm
      have hm2 : 1 ≤ st2.max_size := by rw [hmax]; exact hm
      simp [processElems, dictReadings, List.filterMap_cons, hst2,
        procFold, ih st2 hm2]

/-- With a positive capacity and every element a dict carrying `name`
and `values`, the message-handler loop raises nothing, dispatches every
element in list order, and processes them one at a time. -/
theorem hdpGo_spec (elems : List SensorElem) :
    ∀ st : IMUBuffer, 1 ≤ st.max_size →
      (∀ e ∈ elems, wellShaped e = true) →
      hdpGo st elems =
        (procFold st (elemReadings elems),
          .ok (elemReadings elems)) := by
  induction elems with
  | nil => intro st hm hws; simp [hdpGo, elemReadings, procFold]
  | cons e rest ih =>
    intro st hm hws
    have he : wellShaped e = true := hws e (by simp)
    cases e with
    | nonDictElem v => simp [wellShaped] at he
    | dictElem nm vs =>
      cases nm with
      | none => simp [wellShaped] at he
      | some n =>
        cases vs with
        | none => simp [wellShaped] at he
        | some v =>
          obtain ⟨st2, hst2, hmax⟩ :=
            process_total st { sensor_name := n, payload := v } hm
          have hm2 : 1 ≤ st2.max_size := by rw [hmax]; exact hm
          have ih2 := ih st2 hm2 (fun e he2 => hws e (by simp [he2]))
          simp [hdpGo, hst2, elemReadings, List.filterMap_cons,
            procFold, ih2, Except.map]

/-- Pushing a list of entries onto a buffer that is within a positive
capacity never raises and keeps exactly the newest `max_size` entries
of the combined sequence. -/
theorem push_all_spec (m : Nat) (hm : 1 ≤ m) :
    ∀ (xs b : List PyPayload), b.length ≤ m →
      push_all (m : Int) b xs =
        some ((b ++ xs).drop ((b ++ xs).length - m)) := by
  intro xs
  induction xs with
  | nil =>
    intro b hb
    simp [push_all, Nat.sub_eq_zero_of_le hb]
  | cons x xs ih =>
    intro b hb
    unfold push_all add_to_buffer
    by_cases hge : ((b.length : Int) ≥ (m : Int))
    · have hlen : b.length = m := le_antisymm hb (by exact_mod_cast hge)
      cases b with
      | nil =>
        exfalso
        simp only [List.length_nil] at hlen
        omega
      | cons a rest =>
        rw [if_pos hge]
        have hL : rest.length + 1 = m := by simpa using hlen
        have h2 : (rest ++ [x]).length ≤ m := by simp; omega
        show push_all (m : Int) (rest ++ [x]) xs = _
        rw [ih (rest ++ [x]) h2]
        congr 1
        have e1 : (rest ++ [x]) ++ xs = rest ++ x :: xs := by simp
        have e2 : (a :: rest) ++ x :: xs = a :: (rest ++ x :: xs) := rfl
        rw [e1, e2]
        have d2 : (a :: (rest ++ x :: xs)).length - m =
            ((rest ++ x :: xs).length - m) + 1 := by
          simp only [List.length_cons, List.length_append]
          omega
        rw [d2, List.drop_succ_cons]
    · rw [if_neg hge]
      have h2 : (b ++ [x]).length ≤ m := by
        simp only [List.length_append, List.length_cons, List.length_nil]
        push_cast at hge
        omega
      show push_all (m : Int) (b ++ [x]) xs = _
      rw [ih (b ++ [x]) h2]
      congr 1
      simp [List.append_assoc]

/-! ## Claim theorems -/

/-- C1: for every capacity `max_size > 0` and every sequence of
`max_size + k` pushed value maps, after all pushes the buffer holds
exactly the last `max_size` maps pushed, in arrival order, and no push
ever leaves the buffer with more than `max_size` entries. -/
theorem c1_bounded_fifo_eviction (m k : Nat) (hm : 0 < m)
    (xs : List PyPayload) (hlen : xs.length = m + k) :
    push_all (m : Int) [] xs = some (xs.drop k) ∧
    (xs.drop k).length = m ∧
    (∀ i : Nat, ∃ b, push_all (m : Int) [] (xs.take i) = some b ∧
      b.length ≤ m) := by
  have main := push_all_spec m hm xs [] (by simp)
  refine ⟨?_, ?_, ?_⟩
  · rw [main]
    congr 1
    simp [hlen, Nat.add_sub_cancel_left]
  · rw [List.length_drop, hlen]
    omega
  · intro i
    have h := push_all_spec m hm (xs.take i) [] (by simp)
    refine ⟨(xs.take i).drop ((xs.take i).length - m),
      by simpa using h, ?_⟩
    rw [List.length_drop]
    omega

/-- Witness for C1 at capacity 2 and three pushes. -/
theorem c1_bounded_fifo_eviction_witness :
    push_all ((2 : Nat) : Int) []
        [accelValues, boolValuesPayload, accelValues] =
      some ([accelValues, boolValuesPayload, accelValues].drop 1) ∧
    ([accelValues, boolValuesPayload, accelValues].drop 1).length = 2 ∧
    (∀ i : Nat, ∃ b, push_all ((2 : Nat) : Int) []
        ([accelValues, boolValuesPayload, accelValues].take i) = some b ∧
      b.length ≤ 2) :=
  c1_bounded_fifo_eviction 2 1 (by decide)
    [accelValues, boolValuesPayload, accelValues] (by decide)

/-- C2: for every known sensor type and values map missing a required
field, validation reports the first missing field in the left-to-right
order of the required-field table and the reading leaves the whole
buffer state unchanged. -/
theorem c2_first_missing_field_reported (st : IMUBuffer) (name : String)
    (entries : List (String × PyVal)) (pre : List String) (f : String)
    (post : List String)
    (_hknown : knownSensor name = true)
    (hsplit : requiredFields name = pre ++ f :: post)
    (hpre : ∀ g ∈ pre, hasKey entries g = true)
    (hf : hasKey entries f = false) :
    validate_sensor_values (.dict entries) name =
      .error (.missingField f) ∧
    process_sensor_reading st
        { sensor_name := name, payload := .dict entries } = some st := by
  have hval : validate_sensor_values (.dict entries) name =
      .error (.missingField f) := by
    unfold validate_sensor_values
    dsimp only
    rw [hsplit, find_missing_first entries pre f post hpre hf]
  exact ⟨hval,
    process_on_invalid st { sensor_name := name, payload := .dict entries }
      (.missingField f) hval⟩

/-- Witness for C2: an accelerometer map with only `x` reports `y`. -/
theorem c2_first_missing_field_reported_witness :
    validate_sensor_values (.dict [("x", .pyInt 0)]) "accelerometer" =
      .error (.missingField "y") ∧
    process_sensor_reading (imuBufferInit 3)
        { sensor_name := "accelerometer",
          payload := .dict [("x", .pyInt 0)] } = some (imuBufferInit 3) :=
  c2_first_missing_field_reported (imuBufferInit 3) "accelerometer"
    [("x", .pyInt 0)] ["x"] "y" ["z"] (by decide) (by decide)
    (by decide) (by decide)

/-- C4 counterexample: `IMUMessageHandler.handle_data_processing` never
checks `deviceId`, so a body lacking `deviceId` with a valid non-empty
payload is fully processed on that cited path: one reading is
dispatched and the accelerometer buffer mutates, against the claim's
wholesale rejection. -/
theorem c4_handler_ignores_missing_deviceId :
    c4Body.deviceId = none ∧
    handle_data_processing (imuBufferInit 3) c4Body =
      ({ imuBufferInit 3 with
          accelerometer_data_buffer := [accelValues] },
        .ok [{ sensor_name := "accelerometer", payload := accelValues }]) ∧
    (handle_data_processing (imuBufferInit 3)
        c4Body).1.accelerometer_data_buffer ≠
      (imuBufferInit 3).accelerometer_data_buffer := by
  refine ⟨rfl, rfl, ?_⟩
  decide

/-- C4 (amended): the MQTT broker handler rejects wholesale — zero
readings dispatched, every buffer unchanged — any body lacking a truthy
`deviceId` or whose payload is not a non-empty list; the IMU message
handler rejects wholesale (with an error and no dispatch) any body
whose payload is not a non-empty list, but it never checks `deviceId`:
its result is independent of the `deviceId` field. -/
theorem c4_wholesale_reject_amended (st st2 : IMUBuffer)
    (body body2 : MsgBody)
    (h : deviceIdTruthy body = false ∨
      isNonEmptyList (imuPayload body) = false)
    (h2 : isNonEmptyList (imuPayload body2) = false) :
    handle_imu_data_message st body = (st, []) ∧
    handle_data_processing st2 body2 = (st2, .error .invalidPayload) ∧
    (∀ (st3 : IMUBuffer) (body3 : MsgBody) (d : Option PyVal),
      handle_data_processing st3 { body3 with deviceId := d } =
        handle_data_processing st3 body3) := by
  refine ⟨?_, ?_, ?_⟩
  · unfold handle_imu_data_message
    rcases h with h | h
    · rw [if_pos h]
    · by_cases hd : deviceIdTruthy body = false
      · rw [if_pos hd]
      · rw [if_neg hd]
        rcases hp : imuPayload body with elems | v
        · cases elems with
          | nil => rfl
          | cons e es =>
            rw [hp] at h
            simp [isNonEmptyList] at h
        · rfl
  · unfold handle_data_processing
    rcases hp : imuPayload body2 with elems | v
    · cases elems with
      | nil => rfl
      | cons e es =>
        rw [hp] at h2
        simp [isNonEmptyList] at h2
    · rfl
  · intro st3 body3 d
    rfl

/-- Witness for C4 (amended): a body with no `deviceId` on the broker
path and a body with a non-list payload on the handler path. -/
theorem c4_wholesale_reject_amended_witness :
    handle_imu_data_message (imuBufferInit 3) c4Body =
      (imuBufferInit 3, []) ∧
    handle_data_processing (imuBufferInit 3) c4BadPayloadBody =
      (imuBufferInit 3, .error .invalidPayload) ∧
    (∀ (st3 : IMUBuffer) (body3 : MsgBody) (d : Option PyVal),
      handle_data_processing st3 { body3 with deviceId := d } =
        handle_data_processing st3 body3) :=
  c4_wholesale_reject_amended (imuBufferInit 3) (imuBufferInit 3)
    c4Body c4BadPayloadBody (Or.inl (by decide)) (by decide)

/-- C6: a reading with an unknown sensor tag is dropped silently:
every buffer is unchanged and no error is raised. -/
theorem c6_unknown_sensor_dropped (st : IMUBuffer) (name : String)
    (v : PyPayload) (h : knownSensor name = false) :
    process_sensor_reading st { sensor_name := name, payload := v } =
      some st := by
  have h1 : name ≠ "accelerometer" := by
    intro e; subst e; simp [knownSensor] at h
  have h2 : name ≠ "gyroscope" := by
    intro e; subst e; simp [knownSensor] at h
  have h3 : name ≠ "gravity" := by
    intro e; subst e; simp [knownSensor] at h
  have h4 : name ≠ "totalacceleration" := by
    intro e; subst e; simp [knownSensor] at h
  have h5 : name ≠ "orientation" := by
    intro e; subst e; simp [knownSensor] at h
  simp [process_sensor_reading, h1, h2, h3, h4, h5]

/-- Witness for C6: a magnetometer reading is dropped. -/
theorem c6_unknown_sensor_dropped_witness :
    process_sensor_reading (imuBufferInit 3)
        { sensor_name := "magnetometer", payload := accelValues } =
      some (imuBufferInit 3) :=
  c6_unknown_sensor_dropped (imuBufferInit 3) "magnetometer" accelValues
    (by decide)

/-- C9: a values map whose `x` field is the boolean `True` passes the
numeric validation (Python `bool` is a subclass of `int`) and the
reading is buffered. -/
theorem c9_bool_accepted_as_numeric :
    validate_sensor_values boolValuesPayload "accelerometer" =
      .ok () ∧
    process_sensor_reading (imuBufferInit 3)
        { sensor_name := "accelerometer", payload := boolValuesPayload } =
      some { imuBufferInit 3 with
        accelerometer_data_buffer := [boolValuesPayload] } := by
  constructor
  · rfl
  · rfl

/-- C10: construction stores `max_size` unvalidated; with a
non-positive capacity the first push of a valid reading raises an
uncaught `IndexError`, and the push operation is total exactly under
the precondition `max_size ≥ 1`. -/
theorem c10_unvalidated_capacity (m : Int) (hm : m ≤ 0) :
    (imuBufferInit m).max_size = m ∧
    process_sensor_reading (imuBufferInit m) validAccelReading = none ∧
    (∀ m2 : Int, 1 ≤ m2 → ∀ (v : PyPayload) (b : List PyPayload),
      (add_to_buffer m2 v b).isSome = true) := by
  refine ⟨rfl, ?_, ?_⟩
  · have hv : validate_sensor_values accelValues "accelerometer" =
        .ok () := rfl
    have ha : add_to_buffer m accelValues [] = none := by
      unfold add_to_buffer
      rw [if_pos (by simp only [List.length_nil, Nat.cast_zero]; omega)]
    simp [process_sensor_reading, validAccelReading, imuBufferInit,
      hv, ha]
  · intro m2 hm2 v b
    unfold add_to_buffer
    split
    · next hge =>
      cases b with
      | nil =>
        exfalso
        simp only [List.length_nil, Nat.cast_zero] at hge
        omega
      | cons a rest => rfl
    · rfl

/-- Witness for C10 at capacity 0. -/
theorem c10_unvalidated_capacity_witness :
    (imuBufferInit 0).max_size = 0 ∧
    process_sensor_reading (imuBufferInit 0) validAccelReading = none ∧
    (∀ m2 : Int, 1 ≤ m2 → ∀ (v : PyPayload) (b : List PyPayload),
      (add_to_buffer m2 v b).isSome = true) :=
  c10_unvalidated_capacity 0 (by decide)

/-- C3: for every known sensor type, a dict values map containing every
required field with all values numeric is accepted: processing
succeeds, the map is appended to that sensor type's buffer (a plain
append while below capacity), the capacity is unchanged, and no other
sensor type's buffer changes. -/
theorem c3_valid_reading_buffered (st : IMUBuffer) (name : String)
    (entries : List (String × PyVal))
    (hknown : knownSensor name = true)
    (hreq : ∀ f ∈ requiredFields name, hasKey entries f = true)
    (hnum : ∀ p ∈ entries, isNumber p.2 = true)
    (hm : 1 ≤ st.max_size) :
    ∃ st2,
      process_sensor_reading st
          { sensor_name := name, payload := .dict entries } = some st2 ∧
      st2.max_size = st.max_size ∧
      (∀ other, knownSensor other = true → other ≠ name →
        bufferOf st2 other = bufferOf st other) ∧
      (bufferOf st2 name).getLast? = some (.dict entries) ∧
      (((bufferOf st name).length : Int) < st.max_size →
        bufferOf st2 name = bufferOf st name ++ [.dict entries]) := by
  have hval := validate_ok name entries hreq hnum
  simp only [knownSensor, Bool.or_eq_true, beq_iff_eq] at hknown
  rcases hknown with ((((h | h) | h) | h) | h) <;> subst h
  · obtain ⟨b2, hadd, hlast, happ⟩ :=
      add_ok st.max_size hm (.dict entries) st.accelerometer_data_buffer
    refine ⟨{ st with accelerometer_data_buffer := b2 },
      ?_, rfl, ?_, ?_, ?_⟩
    · simp [process_sensor_reading, hval, hadd]
    · intro other hother hne
      simp only [knownSensor, Bool.or_eq_true, beq_iff_eq] at hother
      rcases hother with ((((ho | ho) | ho) | ho) | ho) <;> subst ho
      · exact absurd rfl hne
      · simp [bufferOf]
      · simp [bufferOf]
      · simp [bufferOf]
      · simp [bufferOf]
    · simpa [bufferOf] using hlast
    · intro hlt
      have h2 := happ (by simpa [bufferOf] using hlt)
      simpa [bufferOf] using h2
  · obtain ⟨b2, hadd, hlast, happ⟩ :=
      add_ok st.max_size hm (.dict entries) st.gyroscope_data_buffer
    refine ⟨{ st with gyroscope_data_buffer := b2 },
      ?_, rfl, ?_, ?_, ?_⟩
    · simp [process_sensor_reading, hval, hadd]
    · intro other hother hne
      simp only [knownSensor, Bool.or_eq_true, beq_iff_eq] at hother
      rcases hother with ((((ho | ho) | ho) | ho) | ho) <;> subst ho
      · simp [bufferOf]
      · exact absurd rfl hne
      · simp [bufferOf]
      · simp [bufferOf]
      · simp [bufferOf]
    · simpa [bufferOf] using hlast
    · intro hlt
      have h2 := happ (by simpa [bufferOf] using hlt)
      simpa [bufferOf] using h2
  · obtain ⟨b2, hadd, hlast, happ⟩ :=
      add_ok st.max_size hm (.dict entries) st.gravity_data_buffer
    refine ⟨{ st with gravity_data_buffer := b2 },
      ?_, rfl, ?_, ?_, ?_⟩
    · simp [process_sensor_reading, hval, hadd]
    · intro other hother hne
      simp only [knownSensor, Bool.or_eq_true, beq_iff_eq] at hother
      rcases hother with ((((ho | ho) | ho) | ho) | ho) <;> subst ho
      · simp [bufferOf]
      · simp [bufferOf]
      · exact absurd rfl hne
      · simp [bufferOf]
      · simp [bufferOf]
    · simpa [bufferOf] using hlast
    · intro hlt
      have h2 := happ (by simpa [bufferOf] using hlt)
      simpa [bufferOf] using h2
  · obtain ⟨b2, hadd, hlast, happ⟩ :=
      add_ok st.max_size hm (.dict entries) st.total_acceleration_data_buffer
    refine ⟨{ st with total_acceleration_data_buffer := b2 },
      ?_, rfl, ?_, ?_, ?_⟩
    · simp [process_sensor_reading, hval, hadd]
    · intro other hother hne
      simp only [knownSensor, Bool.or_eq_true, beq_iff_eq] at hother
      rcases hother with ((((ho | ho) | ho) | ho) | ho) <;> subst ho
      · simp [bufferOf]
      · simp [bufferOf]
      · simp [bufferOf]
      · exact absurd rfl hne
      · simp [bufferOf]
    · simpa [bufferOf] using hlast
    · intro hlt
      have h2 := happ (by simpa [bufferOf] using hlt)
      simpa [bufferOf] using h2
  · obtain ⟨b2, hadd, hlast, happ⟩ :=
      add_ok st.max_size hm (.dict entries) st.orientation_data_buffer
    refine ⟨{ st with orientation_data_buffer := b2 },
      ?_, rfl, ?_, ?_, ?_⟩
    · simp [process_sensor_reading, hval, hadd]
    · intro other hother hne
      simp only [knownSensor, Bool.or_eq_true, beq_iff_eq] at hother
      rcases hother with ((((ho | ho) | ho) | ho) | ho) <;> subst ho
      · simp [bufferOf]
      · simp [bufferOf]
      · simp [bufferOf]
      · simp [bufferOf]
      · exact absurd rfl hne
    · simpa [bufferOf] using hlast
    · intro hlt
      have h2 := happ (by simpa [bufferOf] using hlt)
      simpa [bufferOf] using h2

/-- Witness for C3: a complete accelerometer map on an empty buffer. -/
theorem c3_valid_reading_buffered_witness :
    ∃ st2,
      process_sensor_reading (imuBufferInit 3)
          { sensor_name := "accelerometer",
            payload := .dict [("x", .pyInt 1), ("y", .pyInt 2),
              ("z", .pyInt 3)] } = some st2 ∧
      st2.max_size = (imuBufferInit 3).max_size ∧
      (∀ other, knownSensor other = true → other ≠ "accelerometer" →
        bufferOf st2 other = bufferOf (imuBufferInit 3) other) ∧
      (bufferOf st2 "accelerometer").getLast? =
        some (.dict [("x", .pyInt 1), ("y", .pyInt 2), ("z", .pyInt 3)]) ∧
      (((bufferOf (imuBufferInit 3) "accelerometer").length : Int) <
          (imuBufferInit 3).max_size →
        bufferOf st2 "accelerometer" =
          bufferOf (imuBufferInit 3) "accelerometer" ++
            [.dict [("x", .pyInt 1), ("y", .pyInt 2), ("z", .pyInt 3)]]) :=
  c3_valid_reading_buffered (imuBufferInit 3) "accelerometer"
    [("x", .pyInt 1), ("y", .pyInt 2), ("z", .pyInt 3)]
    (by decide) (by decide) (by decide) (by decide)

/-- C5 counterexample: in `IMUMessageHandler.handle_data_processing`, a
well-formed body whose first element lacks the `values` key aborts the
whole loop, so the valid accelerometer element behind it never reaches
its buffer. -/
theorem c5_counterexample :
    handle_data_processing (imuBufferInit 5) c5Body =
      (imuBufferInit 5, .error .malformedElement) ∧
    (handle_data_processing (imuBufferInit 5)
        c5Body).1.accelerometer_data_buffer = [] := by
  constructor
  · rfl
  · rfl

/-- C5 (amended): with a positive capacity, the broker-side handler
dispatches every dict payload element in list order, skipping non-dict
elements, and a validation failure of one element never blocks the
rest; the message-handler loop behaves the same only when every element
is a dict carrying `name` and `values` keys (validation failures inside
`values` still do not block), since a malformed element aborts its
loop. -/
theorem c5_partial_failure_amended (st st2 : IMUBuffer) (body : MsgBody)
    (elems elems2 : List SensorElem)
    (hd : deviceIdTruthy body = true)
    (hp : imuPayload body = .list elems)
    (hne : elems ≠ [])
    (hm : 1 ≤ st.max_size) (hm2 : 1 ≤ st2.max_size)
    (hws : ∀ e ∈ elems2, wellShaped e = true) :
    handle_imu_data_message st body =
      (procFold st (dictReadings elems), dictReadings elems) ∧
    hdpGo st2 elems2 =
      (procFold st2 (elemReadings elems2),
        .ok (elemReadings elems2)) := by
  constructor
  · unfold handle_imu_data_message
    rw [hp, if_neg (by simp [hd])]
    cases elems with
    | nil => exact absurd rfl hne
    | cons e es => exact processElems_spec (e :: es) st hm
  · exact hdpGo_spec elems2 st2 hm2 hws

/-- Witness for C5 (amended): a broker message holding a non-dict
element, a validation-failing element and a valid element, and a
handler list holding a failing and a valid element. -/
theorem c5_partial_failure_amended_witness :
    handle_imu_data_message (imuBufferInit 4)
        { deviceId := some (.pyStr "d1")
          payload := some (.list
            [.nonDictElem (.pyInt 7),
              .dictElem (some "accelerometer")
                (some (.dict [("x", .pyInt 1)])),
              .dictElem (some "accelerometer") (some accelValues)]) } =
      (procFold (imuBufferInit 4) (dictReadings
        [.nonDictElem (.pyInt 7),
          .dictElem (some "accelerometer")
            (some (.dict [("x", .pyInt 1)])),
          .dictElem (some "accelerometer") (some accelValues)]),
        dictReadings
          [.nonDictElem (.pyInt 7),
            .dictElem (some "accelerometer")
              (some (.dict [("x", .pyInt 1)])),
            .dictElem (some "accelerometer") (some accelValues)]) ∧
    hdpGo (imuBufferInit 4)
        [.dictElem (some "gyroscope") (some (.dict [("x", .pyInt 1)])),
          .dictElem (some "gyroscope") (some accelValues)] =
      (procFold (imuBufferInit 4) (elemReadings
        [.dictElem (some "gyroscope") (some (.dict [("x", .pyInt 1)])),
          .dictElem (some "gyroscope") (some accelValues)]),
        .ok (elemReadings
          [.dictElem (some "gyroscope") (some (.dict [("x", .pyInt 1)])),
            .dictElem (some "gyroscope") (some accelValues)])) :=
  c5_partial_failure_amended (imuBufferInit 4) (imuBufferInit 4)
    { deviceId := some (.pyStr "d1")
      payload := some (.list
        [.nonDictElem (.pyInt 7),
          .dictElem (some "accelerometer")
            (some (.dict [("x", .pyInt 1)])),
          .dictElem (some "accelerometer") (some accelValues)]) }
    [.nonDictElem (.pyInt 7),
      .dictElem (some "accelerometer") (some (.dict [("x", .pyInt 1)])),
      .dictElem (some "accelerometer") (some accelValues)]
    [.dictElem (some "gyroscope") (some (.dict [("x", .pyInt 1)])),
      .dictElem (some "gyroscope") (some accelValues)]
    (by decide) (by decide) (by decide) (by decide) (by decide)
    (by decide)

/-- C7: the on-connect callback with result code 0 sets the connection
flag, subscribes to exactly the three configured topics in order and
triggers exactly one status publish; with any non-zero code it clears
the flag and performs no transport action. -/
theorem c7_on_connect_actions (t : Topics) (st : BrokerState) (rc : Int)
    (hrc : rc ≠ 0) :
    (on_connect t st 0).1.connection_established = true ∧
    (on_connect t st 0).2.filterMap subTopic =
      [t.recording_control, t.data_stream, t.status] ∧
    (on_connect t st 0).2.countP (fun a => isStatusTrigger a) = 1 ∧
    (on_connect t st rc).1.connection_established = false ∧
    (on_connect t st rc).2 = [] := by
  refine ⟨?_, ?_, ?_, ?_, ?_⟩
  · simp [on_connect]
  · simp [on_connect, subTopic]
  · simp [on_connect, isStatusTrigger]
  · simp [on_connect, hrc]
  · simp [on_connect, hrc]

/-- Witness for C7 with concrete topics and result code 1. -/
theorem c7_on_connect_actions_witness :
    (on_connect demoTopics runningSession 0).1.connection_established =
      true ∧
    (on_connect demoTopics runningSession 0).2.filterMap subTopic =
      [demoTopics.recording_control, demoTopics.data_stream,
        demoTopics.status] ∧
    (on_connect demoTopics runningSession 0).2.countP
      (fun a => isStatusTrigger a) = 1 ∧
    (on_connect demoTopics runningSession 1).1.connection_established =
      false ∧
    (on_connect demoTopics runningSession 1).2 = [] :=
  c7_on_connect_actions demoTopics runningSession 1 (by decide)

/-- C8 counterexample: a non-zero disconnect code triggers no reconnect
call when `service_running` is false, against the claim's
unconditional one reconnect call. -/
theorem c8_counterexample :
    (on_disconnect stoppedSession 7).2.countP
      (fun a => isReconnectCall a) ≠ 1 := by
  decide

/-- C8 (amended): the on-disconnect callback always clears
`connection_established` and never changes `service_running` (a failed
reconnect is caught and only logged); a non-zero reason code triggers
exactly one reconnect call when `service_running` is true and none
otherwise, and a zero reason code triggers none. -/
theorem c8_on_disconnect_amended (st : BrokerState) (rc : Int)
    (hrc : rc ≠ 0) :
    (on_disconnect st rc).1.connection_established = false ∧
    (on_disconnect st 0).1.connection_established = false ∧
    (on_disconnect st rc).1.service_running = st.service_running ∧
    (on_disconnect st 0).1.service_running = st.service_running ∧
    (on_disconnect st 0).2.countP (fun a => isReconnectCall a) = 0 ∧
    (on_disconnect st rc).2.countP (fun a => isReconnectCall a) =
      (if st.service_running then 1 else 0) := by
  refine ⟨?_, ?_, ?_, ?_, ?_, ?_⟩
  · unfold on_disconnect
    dsimp only
    split_ifs <;> rfl
  · simp [on_disconnect]
  · unfold on_disconnect
    dsimp only
    split_ifs <;> rfl
  · simp [on_disconnect]
  · simp [on_disconnect]
  · unfold on_disconnect
    dsimp only
    rw [if_pos hrc]
    cases hs : st.service_running <;>
      simp [hs, isReconnectCall]

/-- Witness for C8 (amended) with a running service and code 7. -/
theorem c8_on_disconnect_amended_witness :
    (on_disconnect runningSession 7).1.connection_established = false ∧
    (on_disconnect runningSession 0).1.connection_established = false ∧
    (on_disconnect runningSession 7).1.service_running =
      runningSession.service_running ∧
    (on_disconnect runningSession 0).1.service_running =
      runningSession.service_running ∧
    (on_disconnect runningSession 0).2.countP
      (fun a => isReconnectCall a) = 0 ∧
    (on_disconnect runningSession 7).2.countP
      (fun a => isReconnectCall a) =
      (if runningSession.service_running then 1 else 0) :=
  c8_on_disconnect_amended runningSession 7 (by decide)

end FPImu
